import Mathlib

/-!
Verification of the retry-with-backoff utility and the turn-taking debate
engine of the cold-case-crawler repository, as a shallow embedding in Lean.

Retry part: embeds `with_retry` from src/utils/retry.py.  The Python code is

    for attempt in range(max_attempts):
        try:
            return await func(*args, **kwargs)
        except exceptions as e:
            last_exception = e
            if attempt < max_attempts - 1:
                delay = base_delay * (2**attempt)
                ... log ...
                await asyncio.sleep(delay)
            else:
                ... log ...
    raise last_exception

The wrapped operation is modelled as a function from the invocation index
(0-based: how many calls were made before) to either a success value or a
raised error.  The `exceptions` tuple of the decorator becomes a Boolean
predicate `catches` on error values (membership via isinstance).  The model
returns the outcome together with the number of invocations made and the
list of sleep durations passed to asyncio.sleep, in order.  Delays are
rationals standing for the Python floats; every delay the code computes is
base_delay times a power of two, which is exact in either representation.
-/

/-- Result of one invocation of a wrapped operation: a returned value or a
raised error. -/
inductive PyResult (ε α : Type) where
  | ok : α → PyResult ε α
  | exn : ε → PyResult ε α
deriving DecidableEq, Repr

/-- Final outcome of the wrapper: a returned value, a propagated error, or
the `raise last_exception` statement executed while last_exception is still
None (a wrapper-made TypeError, possible only when the loop body never
ran). -/
inductive RetryOutcome (ε α : Type) where
  | ok : α → RetryOutcome ε α
  | exn : ε → RetryOutcome ε α
  | noneRaised : RetryOutcome ε α
deriving DecidableEq, Repr

/-- Observable trace of one call of the wrapped function: outcome, number of
invocations of the underlying operation, and the sleep durations in order. -/
structure RetryTrace (ε α : Type) where
  outcome : RetryOutcome ε α
  calls : Nat
  sleeps : List Rat
deriving DecidableEq, Repr

/-- The retry loop of with_retry, by remaining loop iterations.  `attempt`
is the Python loop variable, `last` is last_exception.  An error not caught
by the `except` clause propagates at once; a caught error is recorded and,
when `attempt < max_attempts - 1` (written attempt + 1 < m), the task sleeps
base_delay * 2 ^ attempt before the next iteration. -/
def withRetryGo {ε α : Type} (m : Nat) (b : Rat) (catches : ε → Bool)
    (op : Nat → PyResult ε α) : Nat → Nat → Option ε → RetryTrace ε α
  | 0, _, last =>
    { outcome := match last with
        | some e => RetryOutcome.exn e
        | none => RetryOutcome.noneRaised
      calls := 0, sleeps := [] }
  | fuel + 1, attempt, _ =>
    match op attempt with
    | PyResult.ok a => { outcome := RetryOutcome.ok a, calls := 1, sleeps := [] }
    | PyResult.exn e =>
      if catches e then
        let t := withRetryGo m b catches op fuel (attempt + 1) (some e)
        if attempt + 1 < m then
          { outcome := t.outcome, calls := t.calls + 1,
            sleeps := (b * 2 ^ attempt) :: t.sleeps }
        else
          { outcome := t.outcome, calls := t.calls + 1, sleeps := t.sleeps }
      else
        { outcome := RetryOutcome.exn e, calls := 1, sleeps := [] }

/-- One call of a function wrapped by with_retry(max_attempts, base_delay,
exceptions): run the loop `for attempt in range(max_attempts)` starting with
last_exception = None. -/
def with_retry {ε α : Type} (m : Nat) (b : Rat) (catches : ε → Bool)
    (op : Nat → PyResult ε α) : RetryTrace ε α :=
  withRetryGo m b catches op m 0 none

/-- An operation that fails with a caught error on every invocation makes
the loop run all `fuel` remaining iterations; with the invariant
attempt + fuel = m the trace is the final error, `fuel` calls, and one sleep
per non-final attempt. -/
theorem withRetryGo_allFail {ε α : Type} (m : Nat) (b : Rat)
    (catches : ε → Bool) (op : Nat → PyResult ε α) (fail : Nat → ε)
    (hop : ∀ n, op n = PyResult.exn (fail n))
    (hc : ∀ n, catches (fail n) = true) :
    ∀ fuel attempt last, attempt + fuel = m → 1 ≤ fuel →
      withRetryGo m b catches op fuel attempt last =
        { outcome := RetryOutcome.exn (fail (m - 1)), calls := fuel,
          sleeps := (List.range (fuel - 1)).map (fun i => b * 2 ^ (attempt + i)) } := by
  intro fuel
  induction fuel with
  | zero => intro attempt last _ h1; omega
  | succ f ih =>
    intro attempt last hm _
    rw [withRetryGo, hop attempt]
    simp only [hc attempt, if_true]
    by_cases hf : 1 ≤ f
    · have hlt : attempt + 1 < m := by omega
      rw [ih (attempt + 1) (some (fail attempt)) (by omega) hf]
      simp only [hlt, if_true]
      congr 1
      simp only [Nat.add_sub_cancel]
      conv_rhs => rw [show f = (f - 1) + 1 from by omega, List.range_succ_eq_map]
      simp only [List.map_cons, List.map_map, Nat.add_zero, List.cons.injEq]
      refine ⟨trivial, ?_⟩
      apply List.map_congr_left
      intro i _
      simp only [Function.comp_apply, Nat.succ_eq_add_one]
      have he : attempt + 1 + i = attempt + (i + 1) := by omega
      rw [he]
    · have hf0 : f = 0 := by omega
      subst hf0
      have hnot : ¬ (attempt + 1 < m) := by omega
      have hlast : attempt = m - 1 := by omega
      simp only [withRetryGo, hnot, if_false]
      rw [hlast]
      simp

/-- Claim C2: with max_attempts = m at least 1 and an operation failing on
every invocation with an error the decorator catches, the wrapped call
invokes the operation exactly m times, sleeps exactly m - 1 times, and
re-raises the error observed on the last invocation itself, unaltered. -/
theorem C2_retry_exhaustion {ε α : Type} (m : Nat) (b : Rat)
    (catches : ε → Bool) (op : Nat → PyResult ε α) (fail : Nat → ε)
    (hm : 1 ≤ m)
    (hop : ∀ n, op n = PyResult.exn (fail n))
    (hc : ∀ n, catches (fail n) = true) :
    (with_retry m b catches op).outcome = RetryOutcome.exn (fail (m - 1)) ∧
    (with_retry m b catches op).calls = m ∧
    (with_retry m b catches op).sleeps.length = m - 1 := by
  have h := withRetryGo_allFail m b catches op fail hop hc m 0 none (by omega) hm
  rw [with_retry, h]
  simp

/-- Witness for C2 at m = 3: concrete always-failing operation over String
errors. -/
theorem C2_retry_exhaustion_witness :
    (1 ≤ 3) ∧
    ((with_retry 3 1 (fun _ => true)
        (fun n => (PyResult.exn (toString n) : PyResult String Nat))).outcome =
          RetryOutcome.exn (toString (3 - 1)) ∧
      (with_retry 3 1 (fun _ => true)
        (fun n => (PyResult.exn (toString n) : PyResult String Nat))).calls = 3 ∧
      (with_retry 3 1 (fun _ => true)
        (fun n => (PyResult.exn (toString n) : PyResult String Nat))).sleeps.length = 3 - 1) :=
  ⟨by decide,
    C2_retry_exhaustion 3 1 (fun _ => true) (fun n => PyResult.exn (toString n))
      (fun n => toString n) (by decide) (fun n => rfl) (fun n => rfl)⟩

/-- Shifting the attempt base of a backoff schedule: the schedule starting
at `attempt` with c + 1 entries is its first delay followed by the schedule
starting at attempt + 1. -/
theorem range_shift_map (b : Rat) (attempt c : Nat) :
    (List.range (c + 1)).map (fun i => b * 2 ^ (attempt + i)) =
      (b * 2 ^ attempt) :: (List.range c).map (fun i => b * 2 ^ (attempt + 1 + i)) := by
  rw [List.range_succ_eq_map]
  simp only [List.map_cons, List.map_map, Nat.add_zero, List.cons.injEq]
  refine ⟨trivial, ?_⟩
  apply List.map_congr_left
  intro i _
  simp only [Function.comp_apply, Nat.succ_eq_add_one]
  have he : attempt + (i + 1) = attempt + 1 + i := by omega
  rw [he]

/-- An operation that fails with caught errors on invocations before k and
returns on invocation k ends the loop at iteration k with the success
value, having slept once per failed attempt. -/
theorem withRetryGo_prefixSuccess {ε α : Type} (m : Nat) (b : Rat)
    (catches : ε → Bool) (op : Nat → PyResult ε α) (fail : Nat → ε)
    (k : Nat) (a : α)
    (hfails : ∀ i, i < k → op i = PyResult.exn (fail i) ∧ catches (fail i) = true)
    (hsucc : op k = PyResult.ok a) (hk : k < m) :
    ∀ fuel attempt last, attempt + fuel = m → attempt ≤ k →
      withRetryGo m b catches op fuel attempt last =
        { outcome := RetryOutcome.ok a, calls := k + 1 - attempt,
          sleeps := (List.range (k - attempt)).map (fun i => b * 2 ^ (attempt + i)) } := by
  intro fuel
  induction fuel with
  | zero => intro attempt last hm hak; omega
  | succ f ih =>
    intro attempt last hm hak
    by_cases hek : attempt = k
    · subst hek
      rw [withRetryGo, hsucc]
      simp
    · have hlt : attempt < k := by omega
      obtain ⟨h1, h2⟩ := hfails attempt hlt
      rw [withRetryGo, h1]
      simp only [h2, if_true]
      have hlt2 : attempt + 1 < m := by omega
      rw [ih (attempt + 1) (some (fail attempt)) (by omega) (by omega)]
      simp only [hlt2, if_true, RetryTrace.mk.injEq]
      refine ⟨trivial, by omega, ?_⟩
      rw [show k - attempt = (k - (attempt + 1)) + 1 from by omega, range_shift_map]

/-- Claim C7: if the operation fails with caught (retryable) errors exactly
k < m times and then returns, the wrapped call invokes it exactly k + 1
times, sleeps exactly k times, and returns the success value of the final
invocation unchanged. -/
theorem C7_retry_eventual_success {ε α : Type} (m : Nat) (b : Rat)
    (catches : ε → Bool) (op : Nat → PyResult ε α) (fail : Nat → ε)
    (k : Nat) (a : α) (hk : k < m)
    (hfails : ∀ i, i < k → op i = PyResult.exn (fail i) ∧ catches (fail i) = true)
    (hsucc : op k = PyResult.ok a) :
    (with_retry m b catches op).outcome = RetryOutcome.ok a ∧
    (with_retry m b catches op).calls = k + 1 ∧
    (with_retry m b catches op).sleeps.length = k := by
  have h := withRetryGo_prefixSuccess m b catches op fail k a hfails hsucc hk
    m 0 none (by omega) (by omega)
  rw [with_retry, h]
  simp

/-- Witness for C7: operation failing once then returning 7, m = 3. -/
theorem C7_retry_eventual_success_witness :
    (1 < 3) ∧
    ((with_retry 3 1 (fun _ => true)
        (fun n => if n = 0 then PyResult.exn "transient" else PyResult.ok 7)).outcome =
          RetryOutcome.ok 7 ∧
      (with_retry 3 1 (fun _ => true)
        (fun n => if n = 0 then PyResult.exn "transient" else PyResult.ok 7)).calls = 1 + 1 ∧
      (with_retry 3 1 (fun _ => true)
        (fun n => if n = 0 then PyResult.exn "transient" else PyResult.ok 7)).sleeps.length = 1) :=
  ⟨by decide,
    C7_retry_eventual_success 3 1 (fun _ => true)
      (fun n => if n = 0 then PyResult.exn "transient" else PyResult.ok 7)
      (fun _ => "transient") 1 7 (by decide)
      (fun i hi => by
        have hi0 : i = 0 := by omega
        subst hi0
        exact ⟨rfl, rfl⟩)
      rfl⟩

/-- Claim C6: an operation whose first failure is of a kind the decorator
does not catch is invoked exactly once; no sleep happens and the error
propagates unchanged. -/
theorem C6_fail_fast {ε α : Type} (m : Nat) (b : Rat)
    (catches : ε → Bool) (op : Nat → PyResult ε α) (e : ε)
    (hm : 1 ≤ m) (hop : op 0 = PyResult.exn e) (hc : catches e = false) :
    with_retry m b catches op =
      { outcome := RetryOutcome.exn e, calls := 1, sleeps := [] } := by
  obtain ⟨f, rfl⟩ : ∃ f, m = f + 1 := ⟨m - 1, by omega⟩
  rw [with_retry, withRetryGo, hop]
  simp [hc]

/-- Witness for C6: an uncaught error kind at m = 3. -/
theorem C6_fail_fast_witness :
    (1 ≤ 3) ∧ ((fun s => s != "fatal") "fatal" = false) ∧
    (with_retry 3 1 (fun s => s != "fatal")
        (fun _ => (PyResult.exn "fatal" : PyResult String Nat)) =
      { outcome := RetryOutcome.exn "fatal", calls := 1, sleeps := [] }) :=
  ⟨by decide, by decide,
    C6_fail_fast 3 1 (fun s => s != "fatal") (fun _ => PyResult.exn "fatal")
      "fatal" (by decide) rfl (by decide)⟩

/-- If every invocation up to index n fails with a caught error and attempt
n + 1 is still permitted, the sleep list starts with the full backoff
schedule through attempt n. -/
theorem withRetryGo_sleepPrefix {ε α : Type} (m : Nat) (b : Rat)
    (catches : ε → Bool) (op : Nat → PyResult ε α) (fail : Nat → ε) (n : Nat)
    (hfails : ∀ i, i ≤ n → op i = PyResult.exn (fail i) ∧ catches (fail i) = true)
    (hn : n + 1 < m) :
    ∀ fuel attempt last, attempt + fuel = m → attempt ≤ n →
      ∃ rest, (withRetryGo m b catches op fuel attempt last).sleeps =
        (List.range (n + 1 - attempt)).map (fun i => b * 2 ^ (attempt + i)) ++ rest := by
  intro fuel
  induction fuel with
  | zero => intro attempt last hm han; omega
  | succ f ih =>
    intro attempt last hm han
    obtain ⟨h1, h2⟩ := hfails attempt (by omega)
    rw [withRetryGo, h1]
    simp only [h2, if_true]
    have hlt : attempt + 1 < m := by omega
    simp only [hlt, if_true]
    by_cases hcase : attempt = n
    · subst hcase
      refine ⟨(withRetryGo m b catches op f (attempt + 1) (some (fail attempt))).sleeps, ?_⟩
      rw [show attempt + 1 - attempt = 0 + 1 from by omega, range_shift_map]
      simp
    · obtain ⟨rest, hrest⟩ := ih (attempt + 1) (some (fail attempt)) (by omega) (by omega)
      refine ⟨rest, ?_⟩
      simp only [hrest]
      rw [show n + 1 - attempt = (n + 1 - (attempt + 1)) + 1 from by omega, range_shift_map]
      simp

/-- Claim C5: with maxAttempts m, baseDelay b at least 0 and retryable
failures on every attempt up to n where attempt n + 1 is still permitted,
the n-th sleep exists and the sleeps through index n are exactly
b * 2 ^ 0, b * 2 ^ 1, ..., b * 2 ^ n. -/
theorem C5_backoff_schedule {ε α : Type} (m : Nat) (b : Rat)
    (catches : ε → Bool) (op : Nat → PyResult ε α) (fail : Nat → ε) (n : Nat)
    (hb : 0 ≤ b) (hn : n + 1 < m)
    (hfails : ∀ i, i ≤ n → op i = PyResult.exn (fail i) ∧ catches (fail i) = true) :
    (with_retry m b catches op).sleeps.take (n + 1) =
      (List.range (n + 1)).map (fun i => b * 2 ^ i) ∧
    n < (with_retry m b catches op).sleeps.length := by
  obtain ⟨rest, hrest⟩ := withRetryGo_sleepPrefix m b catches op fail n hfails hn
    m 0 none (by omega) (by omega)
  rw [with_retry]
  rw [hrest]
  constructor
  · rw [List.take_append_of_le_length (by simp)]
    simp only [Nat.sub_zero]
    rw [List.take_of_length_le (by simp)]
    simp
  · simp
    omega

/-- Witness for C5: always-failing caught operation, m = 4, n = 2; the
first three sleeps are 1, 2, 4. -/
theorem C5_backoff_schedule_witness :
    ((0 : Rat) ≤ 1) ∧ (2 + 1 < 4) ∧
    ((with_retry 4 1 (fun _ => true)
        (fun _ => (PyResult.exn "transient" : PyResult String Nat))).sleeps.take (2 + 1) =
      (List.range (2 + 1)).map (fun i => (1 : Rat) * 2 ^ i) ∧
     2 < (with_retry 4 1 (fun _ => true)
        (fun _ => (PyResult.exn "transient" : PyResult String Nat))).sleeps.length) :=
  ⟨by decide, by decide,
    C5_backoff_schedule 4 1 (fun _ => true) (fun _ => PyResult.exn "transient")
      (fun _ => "transient") 2 (by decide) (by decide) (fun i _ => ⟨rfl, rfl⟩)⟩

/-- Every run of the loop with at least one iteration remaining (or a
recorded exception) ends in a value or an error produced by some invocation
of the operation itself. -/
theorem withRetryGo_outcome_from_op {ε α : Type} (m : Nat) (b : Rat)
    (catches : ε → Bool) (op : Nat → PyResult ε α) :
    ∀ fuel attempt last,
      (last = none → 1 ≤ fuel) →
      (∀ e, last = some e → ∃ n, op n = PyResult.exn e) →
      (∃ n a, op n = PyResult.ok a ∧
          (withRetryGo m b catches op fuel attempt last).outcome = RetryOutcome.ok a) ∨
      (∃ n e, op n = PyResult.exn e ∧
          (withRetryGo m b catches op fuel attempt last).outcome = RetryOutcome.exn e) := by
  intro fuel
  induction fuel with
  | zero =>
    intro attempt last h0 hsome
    cases last with
    | none => exact absurd (h0 rfl) (by omega)
    | some e =>
      obtain ⟨n, hn⟩ := hsome e rfl
      exact Or.inr ⟨n, e, hn, by rw [withRetryGo]⟩
  | succ f ih =>
    intro attempt last _ _
    rcases hop : op attempt with a | e
    · exact Or.inl ⟨attempt, a, hop, by rw [withRetryGo, hop]⟩
    · by_cases hc : catches e
      · have hrec := ih (attempt + 1) (some e)
          (fun h => absurd h (by simp))
          (fun e2 he2 => ⟨attempt, by injection he2 with h; rw [hop, h]⟩)
        have houtcome :
            (withRetryGo m b catches op (f + 1) attempt last).outcome =
              (withRetryGo m b catches op f (attempt + 1) (some e)).outcome := by
          rw [withRetryGo, hop]
          simp only [hc, if_true]
          by_cases h2 : attempt + 1 < m <;> simp [h2]
        rcases hrec with ⟨n, a, hna, hout⟩ | ⟨n, e2, hne, hout⟩
        · exact Or.inl ⟨n, a, hna, by rw [houtcome, hout]⟩
        · exact Or.inr ⟨n, e2, hne, by rw [houtcome, hout]⟩
      · exact Or.inr ⟨attempt, e, hop, by rw [withRetryGo, hop]; simp [hc]⟩

/-- Claim C10: with max_attempts at least 1, a call of the wrapped function
either returns a value some invocation of the operation produced or raises
an error some invocation raised; the wrapper adds no failure of its own,
and in particular the terminal `raise last_exception` never runs with
last_exception still None. -/
theorem C10_no_wrapper_made_error {ε α : Type} (m : Nat) (b : Rat)
    (catches : ε → Bool) (op : Nat → PyResult ε α) (hm : 1 ≤ m) :
    ((∃ n a, op n = PyResult.ok a ∧
        (with_retry m b catches op).outcome = RetryOutcome.ok a) ∨
     (∃ n e, op n = PyResult.exn e ∧
        (with_retry m b catches op).outcome = RetryOutcome.exn e)) ∧
    (with_retry m b catches op).outcome ≠ RetryOutcome.noneRaised := by
  have h := withRetryGo_outcome_from_op m b catches op m 0 none
    (fun _ => hm) (fun e he => by cases he)
  rw [with_retry]
  refine ⟨h, ?_⟩
  rcases h with ⟨n, a, _, hout⟩ | ⟨n, e, _, hout⟩ <;> rw [hout] <;> intro hcon <;> cases hcon

/-- Witness for C10: m = 2, operation failing once with a caught error then
returning 42. -/
theorem C10_no_wrapper_made_error_witness :
    (1 ≤ 2) ∧
    (((∃ n a, (fun k => if k = 0 then PyResult.exn "e" else PyResult.ok 42) n =
          PyResult.ok a ∧
        (with_retry 2 1 (fun _ => true)
          (fun k => if k = 0 then PyResult.exn "e" else PyResult.ok 42)).outcome =
          RetryOutcome.ok a) ∨
      (∃ n e, (fun k => if k = 0 then PyResult.exn "e" else PyResult.ok 42) n =
          PyResult.exn e ∧
        (with_retry 2 1 (fun _ => true)
          (fun k => if k = 0 then PyResult.exn "e" else PyResult.ok 42)).outcome =
          RetryOutcome.exn e)) ∧
     (with_retry 2 1 (fun _ => true)
        (fun k => if k = 0 then PyResult.exn "e" else PyResult.ok 42)).outcome ≠
       RetryOutcome.noneRaised) :=
  ⟨by decide,
    C10_no_wrapper_made_error 2 1 (fun _ => true)
      (fun k => if k = 0 then PyResult.exn "e" else PyResult.ok 42) (by decide)⟩

/-!
Debate engine part: embeds DebateEngine.generate_debate, _build_prompt,
generate_social_hooks and compile_script from src/services/debate.py,
together with the data model of src/models/script.py and src/models/case.py.

Strings are Lean strings; Python len, slicing and membership are by code
points, matching Lean character lists.  The helpers below model the Python
string operations the code uses: s[:n], s.strip(), s.lower(), `sub in s`.
Lowercasing is the ASCII case map, which agrees with Python on the ASCII
text involved here.
-/

/-- Python s[:n] on strings (first n code points). -/
def pySlice (n : Nat) (s : String) : String := String.mk (s.toList.take n)

/-- The whitespace set of Python str.strip (ASCII part). -/
def isPySpace (c : Char) : Bool :=
  c = ' ' || c = '\t' || c = '\n' || c = '\x0d' || c = '\x0b' || c = '\x0c'

/-- Python s.strip(): drop leading and trailing whitespace. -/
def pyStrip (s : String) : String :=
  String.mk (((s.toList.dropWhile isPySpace).reverse.dropWhile isPySpace).reverse)

/-- Python s.lower() restricted to the ASCII case map. -/
def pyLower (s : String) : String := String.mk (s.toList.map Char.toLower)

/-- Does the character list start with the given pattern? -/
def subAt : List Char → List Char → Bool
  | _, [] => true
  | [], _ :: _ => false
  | c :: cs, d :: ds => c = d && subAt cs ds

/-- Does the character list contain the pattern as a contiguous run? -/
def hasSub : List Char → List Char → Bool
  | [], sub => sub.isEmpty
  | hay@(_ :: t), sub => subAt hay sub || hasSub t sub

/-- Python `sub in s` for strings. -/
def strContains (s sub : String) : Bool := hasSub s.toList sub.toList

/-- The speaker literals of src/models/script.py (Literal type Speaker). -/
inductive Speaker where
  | maya_vance
  | dr_aris_thorne
deriving DecidableEq, Repr

/-- The emotion-tag literals of src/models/script.py (Literal EmotionTag). -/
inductive EmotionTag where
  | scoffs
  | clears_throat
  | dramatic_pause
  | sighs
  | excited
  | whispers
  | interrupting
  | gasps
  | neutral
deriving DecidableEq, Repr

/-- DialogueLine of src/models/script.py: one line of the podcast script.
The pydantic validators (text non-empty, not whitespace-only) are not baked
into the type; they never decide any claim below. -/
structure DialogueLine where
  speaker : Speaker
  text : String
  emotion_tag : EmotionTag
deriving DecidableEq, Repr

/-- PodcastScript of src/models/script.py.  The created_at timestamp (wall
clock) is omitted; no claim observes it. -/
structure PodcastScript where
  script_id : String
  case_id : String
  episode_title : String
  chapters : List DialogueLine
  social_hooks : List String
deriving DecidableEq, Repr

/-- Evidence of src/models/case.py. -/
structure Evidence where
  evidence_id : String
  description : String
  evidence_type : String
  source_url : Option String
deriving DecidableEq, Repr

/-- CaseFile of src/models/case.py (created_at omitted, as above). -/
structure CaseFile where
  case_id : String
  title : String
  location : String
  date_occurred : Option String
  raw_content : String
  evidence_list : List Evidence
  source_urls : List String
deriving DecidableEq, Repr

/-- The exception classes of src/utils/errors.py that the debate engine can
raise, plus a constructor for every other Python exception, carrying
str(e).  AgentResponseError subclasses DebateEngineError in the source; the
`except AgentResponseError` / `except Exception` distinction below encodes
that hierarchy where it matters. -/
inductive PyError where
  | agentResponseError : String → PyError
  | debateEngineError : String → PyError
  | otherError : String → PyError
deriving DecidableEq, Repr

/-- str(e) for the modelled exceptions: the message. -/
def PyError.msg : PyError → String
  | PyError.agentResponseError s => s
  | PyError.debateEngineError s => s
  | PyError.otherError s => s

/-- Result of one call of agent.run as generate_debate observes it: the
call raised, or returned a falsy result / falsy output, or returned a
validated DialogueLine as output. -/
inductive AgentRunResult where
  | raised : PyError → AgentRunResult
  | noOutput : AgentRunResult
  | output : DialogueLine → AgentRunResult
deriving DecidableEq, Repr

/-- The Maya opening instruction of _build_prompt (used when the context is
empty). -/
def MAYA_OPENING_INSTRUCTION : String :=
  "\nYou are OPENING this episode of Dead Air. This is the INTRO.\n- Welcome listeners to Dead Air\n- Introduce yourself and mention Dr. Thorne\n- Briefly tease this week\x27s case to hook listeners\n- Set the tone for the investigation ahead\nGenerate your opening dialogue line as Maya Vance.\n"

/-- The Maya closing instruction (used when the context holds at least 28
lines; the source comment reads: near the end, for 15 exchanges). -/
def MAYA_CLOSING_INSTRUCTION : String :=
  "\nYou are CLOSING this episode of Dead Air. This is the OUTRO.\n- Summarize the key theories discussed\n- Thank listeners for joining\n- Remind them to subscribe and follow Dead Air for next week\x27s case\n- Sign off with warmth\nGenerate your closing dialogue line as Maya Vance.\n"

/-- The Maya mid-show instruction. -/
def MAYA_CONTINUE_INSTRUCTION : String :=
  "\nContinue the discussion as Maya Vance.\nRespond to Dr. Thorne\x27s points while advancing your narrative perspective.\nGenerate your next dialogue line.\n"

/-- The Thorne first-response instruction (context of exactly 1 line). -/
def THORNE_INTRO_INSTRUCTION : String :=
  "\nMaya just opened the show. Respond as Dr. Thorne with your intro.\n- Greet listeners with your characteristic dry wit\n- Acknowledge Maya\x27s enthusiasm\n- Set expectations for evidence-based analysis\nGenerate your opening dialogue line as Dr. Thorne.\n"

/-- The Thorne closing instruction (context of at least 29 lines). -/
def THORNE_CLOSING_INSTRUCTION : String :=
  "\nYou are helping CLOSE this episode of Dead Air.\n- Summarize what the evidence actually supports\n- Acknowledge what remains unknown about this case\n- Encourage listeners to think critically\n- Sign off professionally\nGenerate your closing dialogue line as Dr. Thorne.\n"

/-- The Thorne mid-show instruction. -/
def THORNE_CONTINUE_INSTRUCTION : String :=
  "\nRespond to Maya\x27s points as Dr. Aris Thorne.\nChallenge her theories with evidence-based analysis.\nGenerate your next dialogue line.\n"

/-- The case-information block of _build_prompt: the triple-quoted f-string
(including its trailing literal `  # Limit to avoid token overflow`, which
is inside the string in the source), plus the KEY EVIDENCE block when the
case has evidence.  `date_occurred or "Unknown"` treats both None and the
empty string as falsy. -/
def case_context (c : CaseFile) : String :=
  let dateStr :=
    match c.date_occurred with
    | some s => if s = "" then "Unknown" else s
    | none => "Unknown"
  let base :=
    "\nCASE INFORMATION:\nTitle: " ++ c.title ++ "\nLocation: " ++ c.location ++
      "\nDate: " ++ dateStr ++ "\n\nCASE DETAILS:\n" ++ pySlice 2000 c.raw_content ++
      "  # Limit to avoid token overflow\n"
  if c.evidence_list.isEmpty then base
  else
    base ++ "\nKEY EVIDENCE:\n" ++
      String.intercalate "\n"
        ((c.evidence_list.take 5).map
          (fun ev => "- " ++ ev.evidence_type ++ ": " ++ pySlice 100 ev.description))

/-- The conversation block of _build_prompt: empty when there is no context,
else the last 6 lines, each rendered as name, colon, text, newline. -/
def conversation_context (context : List DialogueLine) : String :=
  if context.isEmpty then ""
  else
    "\nRECENT CONVERSATION:\n" ++
      String.join
        ((context.drop (context.length - 6)).map
          (fun line =>
            (if line.speaker = Speaker.maya_vance then "Maya" else "Dr. Thorne") ++
              ": " ++ line.text ++ "\n"))

/-- The instruction _build_prompt selects, as a function of the speaker
string and the context length: Maya gets the opening instruction on an
empty context, the closing instruction from 28 context lines on, otherwise
the continue instruction; Thorne gets the first-response instruction at
exactly 1 context line, the closing instruction from 29 on, otherwise the
continue instruction. -/
def instr_for (speaker : String) (n : Nat) : String :=
  if speaker = "maya" then
    if n = 0 then MAYA_OPENING_INSTRUCTION
    else if 28 ≤ n then MAYA_CLOSING_INSTRUCTION
    else MAYA_CONTINUE_INSTRUCTION
  else
    if n = 1 then THORNE_INTRO_INSTRUCTION
    else if 29 ≤ n then THORNE_CLOSING_INSTRUCTION
    else THORNE_CONTINUE_INSTRUCTION

/-- DebateEngine._build_prompt: the case block, the conversation block and
the selected instruction, joined by single newlines. -/
def build_prompt (c : CaseFile) (context : List DialogueLine) (speaker : String) : String :=
  case_context c ++ "\n" ++ conversation_context context ++ "\n" ++
    instr_for speaker context.length

/-- Lines 66-70 of debate.py: Maya, with the speaker field forced. -/
def forceMaya (l : DialogueLine) : DialogueLine :=
  { speaker := Speaker.maya_vance, text := l.text, emotion_tag := l.emotion_tag }

/-- Lines 83-87 of debate.py: Thorne, with the speaker field forced. -/
def forceThorne (l : DialogueLine) : DialogueLine :=
  { speaker := Speaker.dr_aris_thorne, text := l.text, emotion_tag := l.emotion_tag }

/-- The `except` clauses of generate_debate: an AgentResponseError is
re-raised as it is, any other exception e becomes
DebateEngineError("Debate generation failed: " + str(e)). -/
def handleDebateExc (e : PyError) : PyError :=
  match e with
  | PyError.agentResponseError s => PyError.agentResponseError s
  | e => PyError.debateEngineError ("Debate generation failed: " ++ e.msg)

/-- The for-loop of generate_debate.  `r` is the number of exchanges still
to run, `j` the 0-based exchange counter (the Python exchange_num), `lines`
the accumulated dialogue_lines.  The agents are oracles from the invocation
index to a run result; the loop makes exactly one invocation per agent per
exchange, so the invocation index equals the exchange counter. -/
def debateLoop (gM gT : Nat → String → AgentRunResult) (c : CaseFile) :
    Nat → Nat → List DialogueLine → Except PyError (List DialogueLine)
  | 0, _, lines => Except.ok lines
  | r + 1, j, lines =>
    match gM j (build_prompt c lines "maya") with
    | AgentRunResult.raised e => Except.error (handleDebateExc e)
    | AgentRunResult.noOutput =>
      Except.error (PyError.agentResponseError
        ("Maya agent failed to generate response at exchange " ++ toString (j + 1)))
    | AgentRunResult.output lm =>
      let lines1 := lines ++ [forceMaya lm]
      match gT j (build_prompt c lines1 "thorne") with
      | AgentRunResult.raised e => Except.error (handleDebateExc e)
      | AgentRunResult.noOutput =>
        Except.error (PyError.agentResponseError
          ("Thorne agent failed to generate response at exchange " ++ toString (j + 1)))
      | AgentRunResult.output lt =>
        debateLoop gM gT c r (j + 1) (lines1 ++ [forceThorne lt])

/-- The hook-indicator substrings of generate_social_hooks, in source
order. -/
def hook_indicators : List String :=
  ["wait", "but here\x27s the thing", "the evidence", "nobody knew", "the truth",
   "what if", "think about it", "full body chills", "the timeline", "the alibi"]

/-- DebateEngine.generate_social_hooks: keep, in order, each chapter text
that contains an indicator (checked on the lowercased text), stripped, when
the stripped text is strictly longer than 20 and strictly shorter than 280
characters; then the first 5. -/
def generate_social_hooks (script : PodcastScript) : List String :=
  (script.chapters.filterMap (fun line =>
    if hook_indicators.any (fun ind => strContains (pyLower line.text) ind) then
      let hook := pyStrip line.text
      if 20 < hook.length && hook.length < 280 then some hook else none
    else none)).take 5

/-- DebateEngine.compile_script.  The uuid4 draw is passed in as fresh_hex.
Of the pydantic validations of PodcastScript only two can fail on the data
compile_script builds: chapters needs at least one entry and case_id at
least one character (script_id and episode_title start with literal
non-whitespace text).  A pydantic failure is an exception that is neither a
DebateEngineError nor an AgentResponseError. -/
def compile_script (c : CaseFile) (dialogue_lines : List DialogueLine)
    (fresh_hex : String) : Except PyError PodcastScript :=
  let sid := "script-" ++ pySlice 12 fresh_hex
  let episode_title := "The " ++ c.location ++ " Mystery: " ++ c.title
  if dialogue_lines.isEmpty || c.case_id.isEmpty then
    Except.error (PyError.otherError "ValidationError")
  else
    let script : PodcastScript :=
      { script_id := sid, case_id := c.case_id, episode_title := episode_title,
        chapters := dialogue_lines, social_hooks := [] }
    Except.ok { script with social_hooks := generate_social_hooks script }

/-- DebateEngine.generate_debate: run the exchange loop from an empty line
list and exchange 0, then compile the script (compile_script is outside the
try block in the source). -/
def generate_debate (gM gT : Nat → String → AgentRunResult) (c : CaseFile)
    (num_exchanges : Nat) (fresh_hex : String) : Except PyError PodcastScript :=
  match debateLoop gM gT c num_exchanges 0 [] with
  | Except.error e => Except.error e
  | Except.ok dialogue_lines => compile_script c dialogue_lines fresh_hex

/-- The alternating speaker pattern of r complete exchanges: Maya then
Thorne, r times. -/
def abPattern : Nat → List Speaker
  | 0 => []
  | r + 1 => Speaker.maya_vance :: Speaker.dr_aris_thorne :: abPattern r

/-- When both agents return an output on every invocation, the loop
completes all r exchanges: it appends 2r lines whose speakers alternate
Maya/Thorne, and at each exchange i the Maya agent is invoked with the
prompt built from the lines accumulated so far and the Thorne agent with
the prompt additionally holding the forced Maya line, each returned line
being appended with its speaker field forced. -/
theorem debateLoop_success (gM gT : Nat → String → AgentRunResult) (c : CaseFile)
    (hM : ∀ j p, ∃ l, gM j p = AgentRunResult.output l)
    (hT : ∀ j p, ∃ l, gT j p = AgentRunResult.output l) :
    ∀ r j acc, ∃ new, debateLoop gM gT c r j acc = Except.ok (acc ++ new) ∧
      new.map DialogueLine.speaker = abPattern r ∧
      (∀ i, i < r → ∃ lm lt,
        gM (j + i) (build_prompt c (acc ++ new.take (2 * i)) "maya") =
          AgentRunResult.output lm ∧
        gT (j + i) (build_prompt c (acc ++ new.take (2 * i + 1)) "thorne") =
          AgentRunResult.output lt ∧
        new.take (2 * i + 1) = new.take (2 * i) ++ [forceMaya lm] ∧
        new.take (2 * i + 2) = new.take (2 * i + 1) ++ [forceThorne lt]) := by
  intro r
  induction r with
  | zero =>
    intro j acc
    exact ⟨[], by simp [debateLoop], by simp [abPattern],
      fun i hi => absurd hi (by omega)⟩
  | succ r ih =>
    intro j acc
    obtain ⟨lm, hlm⟩ := hM j (build_prompt c acc "maya")
    obtain ⟨lt, hlt⟩ := hT j (build_prompt c (acc ++ [forceMaya lm]) "thorne")
    obtain ⟨new2, hloop, hmap, hfacts⟩ := ih (j + 1) (acc ++ [forceMaya lm, forceThorne lt])
    refine ⟨forceMaya lm :: forceThorne lt :: new2, ?_, ?_, ?_⟩
    · simp only [debateLoop, hlm, hlt]
      rw [show (acc ++ [forceMaya lm]) ++ [forceThorne lt] =
          acc ++ [forceMaya lm, forceThorne lt] from by simp]
      rw [hloop]
      simp
    · simp [abPattern, forceMaya, forceThorne, hmap]
    · intro i hi
      cases i with
      | zero =>
        refine ⟨lm, lt, ?_, ?_, ?_, ?_⟩
        · simpa using hlm
        · simpa using hlt
        · simp
        · simp
      | succ i2 =>
        have hi2 : i2 < r := by omega
        obtain ⟨lm2, lt2, h1, h2, h3, h4⟩ := hfacts i2 hi2
        have hj : j + (i2 + 1) = j + 1 + i2 := by omega
        have htk0 : (forceMaya lm :: forceThorne lt :: new2).take (2 * (i2 + 1)) =
            forceMaya lm :: forceThorne lt :: new2.take (2 * i2) := by
          rw [show 2 * (i2 + 1) = 2 * i2 + 1 + 1 from by ring]
          simp [List.take_succ_cons]
        have htk1 : (forceMaya lm :: forceThorne lt :: new2).take (2 * (i2 + 1) + 1) =
            forceMaya lm :: forceThorne lt :: new2.take (2 * i2 + 1) := by
          rw [show 2 * (i2 + 1) + 1 = (2 * i2 + 1) + 1 + 1 from by ring]
          simp [List.take_succ_cons]
        have htk2 : (forceMaya lm :: forceThorne lt :: new2).take (2 * (i2 + 1) + 2) =
            forceMaya lm :: forceThorne lt :: new2.take (2 * i2 + 2) := by
          rw [show 2 * (i2 + 1) + 2 = (2 * i2 + 2) + 1 + 1 from by ring]
          simp [List.take_succ_cons]
        refine ⟨lm2, lt2, ?_, ?_, ?_, ?_⟩
        · rw [hj, htk0]
          rw [show acc ++ (forceMaya lm :: forceThorne lt :: new2.take (2 * i2)) =
              (acc ++ [forceMaya lm, forceThorne lt]) ++ new2.take (2 * i2) from by simp]
          exact h1
        · rw [hj, htk1]
          rw [show acc ++ (forceMaya lm :: forceThorne lt :: new2.take (2 * i2 + 1)) =
              (acc ++ [forceMaya lm, forceThorne lt]) ++ new2.take (2 * i2 + 1) from by simp]
          exact h2
        · rw [htk1, htk0]
          simp [h3]
        · rw [htk2, htk1]
          simp [h4]

/-- The alternating pattern, as an indexed map: even positions are Maya,
odd positions Thorne. -/
theorem abPattern_eq_range (r : Nat) :
    abPattern r = (List.range (2 * r)).map
      (fun i => if i % 2 = 0 then Speaker.maya_vance else Speaker.dr_aris_thorne) := by
  induction r with
  | zero => simp [abPattern]
  | succ r ih =>
    rw [show 2 * (r + 1) = (2 * r) + 1 + 1 from by ring]
    rw [List.range_succ_eq_map, List.range_succ_eq_map]
    simp only [List.map_cons, List.map_map]
    rw [abPattern, ih]
    refine congrArg₂ _ (by norm_num) (congrArg₂ _ (by norm_num) ?_)
    apply List.map_congr_left
    intro i _
    simp only [Function.comp_apply, Nat.succ_eq_add_one]
    have hmod : (i + 1 + 1) % 2 = i % 2 := by omega
    simp [hmod]

/-- The pattern of r exchanges has 2r entries. -/
theorem abPattern_length (r : Nat) : (abPattern r).length = 2 * r := by
  rw [abPattern_eq_range]
  simp

/-- Claim C1: with E at least 1 and both speaker functions always
returning an output, generate_debate returns a script of exactly 2E turns
whose speakers alternate starting with Maya — even (0-based) positions
carry maya_vance, odd positions dr_aris_thorne — whatever speaker the
agents reported.  The case_id hypothesis restates the CaseFile pydantic
validator (min_length 1). -/
theorem C1_alternating_transcript (gM gT : Nat → String → AgentRunResult)
    (c : CaseFile) (E : Nat) (fresh_hex : String)
    (hM : ∀ j p, ∃ l, gM j p = AgentRunResult.output l)
    (hT : ∀ j p, ∃ l, gT j p = AgentRunResult.output l)
    (hE : 1 ≤ E) (hid : c.case_id.isEmpty = false) :
    ∃ s, generate_debate gM gT c E fresh_hex = Except.ok s ∧
      s.chapters.length = 2 * E ∧
      s.chapters.map DialogueLine.speaker = (List.range (2 * E)).map
        (fun i => if i % 2 = 0 then Speaker.maya_vance else Speaker.dr_aris_thorne) := by
  obtain ⟨new, hloop, hmap, _⟩ := debateLoop_success gM gT c hM hT E 0 []
  simp only [List.nil_append] at hloop
  have hlen : new.length = 2 * E := by
    have hl := congrArg List.length hmap
    simpa [abPattern_length] using hl
  have hne : new.isEmpty = false := by
    cases new with
    | nil => simp at hlen; omega
    | cons a t => rfl
  rw [generate_debate, hloop]
  simp only [compile_script, hne, hid, Bool.or_self, if_false]
  refine ⟨_, rfl, ?_, ?_⟩
  · simpa using hlen
  · simpa [abPattern_eq_range] using hmap

/-- A concrete small case file (the pydantic validators of CaseFile hold
for it). -/
def caseSalem : CaseFile :=
  { case_id := "case-1", title := "Test", location := "Salem",
    date_occurred := none, raw_content := "Facts.", evidence_list := [],
    source_urls := [] }

/-- A concrete agent output whose speaker field is deliberately the wrong
host, to exercise the speaker forcing. -/
def constLine : DialogueLine :=
  { speaker := Speaker.dr_aris_thorne, text := "Just the facts today.",
    emotion_tag := EmotionTag.neutral }

/-- A Maya oracle that always returns constLine. -/
def genConstM : Nat → String → AgentRunResult := fun _ _ => AgentRunResult.output constLine

/-- A Thorne oracle that always returns constLine. -/
def genConstT : Nat → String → AgentRunResult := fun _ _ => AgentRunResult.output constLine

/-- Witness for C1 at E = 2 with the constant oracles. -/
theorem C1_alternating_transcript_witness :
    ∃ s, generate_debate genConstM genConstT caseSalem 2 "0123456789abcdef" =
        Except.ok s ∧
      s.chapters.length = 2 * 2 ∧
      s.chapters.map DialogueLine.speaker = (List.range (2 * 2)).map
        (fun i => if i % 2 = 0 then Speaker.maya_vance else Speaker.dr_aris_thorne) :=
  C1_alternating_transcript genConstM genConstT caseSalem 2 "0123456789abcdef"
    (fun _ _ => ⟨constLine, rfl⟩) (fun _ _ => ⟨constLine, rfl⟩)
    (by decide) (by decide)

/-- Claim C9 (amended): with exchangeCount 3 and always-succeeding speaker
functions the run returns 6 turns ordered Maya, Thorne, Maya, Thorne, Maya,
Thorne, and the prompt of each turn t is built from the first t chapters —
so its instruction is instr_for of the speaker and t.  Turn 0 gets the
opening instruction and turn 1 the response-to-opening instruction, but
turns 2 through 5 — including the final turns 4 and 5 — all get the
continue instructions: the closing instructions require a context of 28
(Maya) or 29 (Thorne) lines, thresholds fixed in the source for a
15-exchange run, and do not scale with the exchange count. -/
theorem C9_scenario_framing (gM gT : Nat → String → AgentRunResult)
    (c : CaseFile) (fresh_hex : String)
    (hM : ∀ j p, ∃ l, gM j p = AgentRunResult.output l)
    (hT : ∀ j p, ∃ l, gT j p = AgentRunResult.output l)
    (hid : c.case_id.isEmpty = false) :
    ∃ s, generate_debate gM gT c 3 fresh_hex = Except.ok s ∧
      s.chapters.map DialogueLine.speaker =
        [Speaker.maya_vance, Speaker.dr_aris_thorne, Speaker.maya_vance,
         Speaker.dr_aris_thorne, Speaker.maya_vance, Speaker.dr_aris_thorne] ∧
      (∀ i, i < 3 → ∃ lm lt,
        gM i (build_prompt c (s.chapters.take (2 * i)) "maya") =
          AgentRunResult.output lm ∧
        gT i (build_prompt c (s.chapters.take (2 * i + 1)) "thorne") =
          AgentRunResult.output lt ∧
        s.chapters.take (2 * i + 1) = s.chapters.take (2 * i) ++ [forceMaya lm] ∧
        s.chapters.take (2 * i + 2) = s.chapters.take (2 * i + 1) ++ [forceThorne lt]) ∧
      instr_for "maya" 0 = MAYA_OPENING_INSTRUCTION ∧
      instr_for "thorne" 1 = THORNE_INTRO_INSTRUCTION ∧
      instr_for "maya" 2 = MAYA_CONTINUE_INSTRUCTION ∧
      instr_for "thorne" 3 = THORNE_CONTINUE_INSTRUCTION ∧
      instr_for "maya" 4 = MAYA_CONTINUE_INSTRUCTION ∧
      instr_for "thorne" 5 = THORNE_CONTINUE_INSTRUCTION := by
  obtain ⟨new, hloop, hmap, hfacts⟩ := debateLoop_success gM gT c hM hT 3 0 []
  simp only [List.nil_append, Nat.zero_add] at hloop hfacts
  have hmap6 : new.map DialogueLine.speaker =
      [Speaker.maya_vance, Speaker.dr_aris_thorne, Speaker.maya_vance,
       Speaker.dr_aris_thorne, Speaker.maya_vance, Speaker.dr_aris_thorne] := by
    rw [hmap]; rfl
  have hne : new.isEmpty = false := by
    cases new with
    | nil => simp at hmap6
    | cons a t => rfl
  rw [generate_debate, hloop]
  simp only [compile_script, hne, hid, Bool.or_self, if_false]
  refine ⟨_, rfl, ?_, ?_, rfl, rfl, rfl, rfl, rfl, rfl⟩
  · simpa using hmap6
  · intro i hi
    obtain ⟨lm, lt, h1, h2, h3, h4⟩ := hfacts i hi
    exact ⟨lm, lt, h1, h2, h3, h4⟩

/-- Witness for the amended C9 with the constant oracles. -/
theorem C9_scenario_framing_witness :
    ∃ s, generate_debate genConstM genConstT caseSalem 3 "abcdef" = Except.ok s ∧
      s.chapters.map DialogueLine.speaker =
        [Speaker.maya_vance, Speaker.dr_aris_thorne, Speaker.maya_vance,
         Speaker.dr_aris_thorne, Speaker.maya_vance, Speaker.dr_aris_thorne] ∧
      (∀ i, i < 3 → ∃ lm lt,
        genConstM i (build_prompt caseSalem (s.chapters.take (2 * i)) "maya") =
          AgentRunResult.output lm ∧
        genConstT i (build_prompt caseSalem (s.chapters.take (2 * i + 1)) "thorne") =
          AgentRunResult.output lt ∧
        s.chapters.take (2 * i + 1) = s.chapters.take (2 * i) ++ [forceMaya lm] ∧
        s.chapters.take (2 * i + 2) = s.chapters.take (2 * i + 1) ++ [forceThorne lt]) ∧
      instr_for "maya" 0 = MAYA_OPENING_INSTRUCTION ∧
      instr_for "thorne" 1 = THORNE_INTRO_INSTRUCTION ∧
      instr_for "maya" 2 = MAYA_CONTINUE_INSTRUCTION ∧
      instr_for "thorne" 3 = THORNE_CONTINUE_INSTRUCTION ∧
      instr_for "maya" 4 = MAYA_CONTINUE_INSTRUCTION ∧
      instr_for "thorne" 5 = THORNE_CONTINUE_INSTRUCTION :=
  C9_scenario_framing genConstM genConstT caseSalem "abcdef"
    (fun _ _ => ⟨constLine, rfl⟩) (fun _ _ => ⟨constLine, rfl⟩) (by decide)

/-- Counterexample to C9 as stated: in the 3-exchange run the transcript
does have 6 alternating turns, so turn 4 is a Maya turn whose prompt is
built from a 4-line context, and turn 5 a Thorne turn with a 5-line
context — but the instructions those contexts select are the continue
instructions, not the closing instructions the claim asserts. -/
theorem C9_counterexample :
    (generate_debate genConstM genConstT caseSalem 3 "abcdef").toOption.map
        (fun s => s.chapters.map DialogueLine.speaker) =
      some [Speaker.maya_vance, Speaker.dr_aris_thorne, Speaker.maya_vance,
        Speaker.dr_aris_thorne, Speaker.maya_vance, Speaker.dr_aris_thorne] ∧
    instr_for "maya" 4 = MAYA_CONTINUE_INSTRUCTION ∧
    ¬ (instr_for "maya" 4 = MAYA_CLOSING_INSTRUCTION) ∧
    instr_for "thorne" 5 = THORNE_CONTINUE_INSTRUCTION ∧
    ¬ (instr_for "thorne" 5 = THORNE_CLOSING_INSTRUCTION) := by
  refine ⟨rfl, rfl, by decide, rfl, by decide⟩

/-- When both agents return outputs on every exchange before jf and the
Maya agent raises on every prompt of exchange jf, the loop that still
contains exchange jf ends in the exception-handling path of
generate_debate for that raised error. -/
theorem debateLoop_mayaRaised (gM gT : Nat → String → AgentRunResult)
    (c : CaseFile) (jf : Nat) (e : PyError)
    (hM : ∀ j p, j < jf → ∃ l, gM j p = AgentRunResult.output l)
    (hT : ∀ j p, j < jf → ∃ l, gT j p = AgentRunResult.output l)
    (hMf : ∀ p, gM jf p = AgentRunResult.raised e) :
    ∀ r j acc, j ≤ jf → jf < j + r →
      debateLoop gM gT c r j acc = Except.error (handleDebateExc e) := by
  intro r
  induction r with
  | zero => intro j acc h1 h2; omega
  | succ r ih =>
    intro j acc hj hlt
    by_cases hje : j = jf
    · subst hje
      simp only [debateLoop, hMf]
    · have hjlt : j < jf := by omega
      obtain ⟨lm, hlm⟩ := hM j (build_prompt c acc "maya") hjlt
      obtain ⟨lt, hlt2⟩ := hT j (build_prompt c (acc ++ [forceMaya lm]) "thorne") hjlt
      simp only [debateLoop, hlm, hlt2]
      exact ih (j + 1) _ (by omega) (by omega)

/-- Claim C3 (amended): when the Maya speaker call at exchange jf < E
permanently fails by raising a non-AgentResponseError exception with
message msg (the retries-exhausted failure of the agent backend), while
all earlier exchanges succeed, generate_debate raises the family error
DebateEngineError — but its message is exactly the wrapped underlying
message, which names neither the failing speaker nor the exchange index;
no partial transcript is returned (the result is this single error).
Speaker and exchange number appear only in the AgentResponseError of the
empty-output path. -/
theorem C3_failure_error_shape (gM gT : Nat → String → AgentRunResult)
    (c : CaseFile) (E jf : Nat) (fresh_hex msg : String)
    (hM : ∀ j p, j < jf → ∃ l, gM j p = AgentRunResult.output l)
    (hT : ∀ j p, j < jf → ∃ l, gT j p = AgentRunResult.output l)
    (hMf : ∀ p, gM jf p = AgentRunResult.raised (PyError.otherError msg))
    (hjf : jf < E) :
    generate_debate gM gT c E fresh_hex =
      Except.error (PyError.debateEngineError ("Debate generation failed: " ++ msg)) ∧
    ∀ s, generate_debate gM gT c E fresh_hex ≠ Except.ok s := by
  have hrun := debateLoop_mayaRaised gM gT c jf (PyError.otherError msg) hM hT hMf
    E 0 [] (by omega) (by omega)
  constructor
  · rw [generate_debate, hrun]
    rfl
  · intro s hcon
    rw [generate_debate, hrun] at hcon
    cases hcon

/-- Witness for the amended C3: Maya raises at exchange 0 of a 1-exchange
run. -/
theorem C3_failure_error_shape_witness :
    (generate_debate (fun _ _ => AgentRunResult.raised (PyError.otherError "boom"))
        genConstT caseSalem 1 "ff" =
      Except.error (PyError.debateEngineError ("Debate generation failed: " ++ "boom")) ∧
    ∀ s, generate_debate (fun _ _ => AgentRunResult.raised (PyError.otherError "boom"))
        genConstT caseSalem 1 "ff" ≠ Except.ok s) :=
  C3_failure_error_shape (fun _ _ => AgentRunResult.raised (PyError.otherError "boom"))
    genConstT caseSalem 1 0 "ff" "boom"
    (fun _ _ h => absurd h (by omega)) (fun _ _ h => absurd h (by omega))
    (fun _ => rfl) (by omega)

/-- Counterexample to C3 as stated: with the Maya call at exchange 0
permanently failing (raising "boom"), the raised error is
DebateEngineError "Debate generation failed: boom" — a message that
contains no occurrence of either host name (checked case-insensitively)
and no digit at all, so it does not identify the failing speaker or the
exchange index. -/
theorem C3_counterexample :
    generate_debate (fun _ _ => AgentRunResult.raised (PyError.otherError "boom"))
        genConstT caseSalem 2 "ff" =
      Except.error (PyError.debateEngineError "Debate generation failed: boom") ∧
    strContains (pyLower "Debate generation failed: boom") "maya" = false ∧
    strContains (pyLower "Debate generation failed: boom") "vance" = false ∧
    strContains (pyLower "Debate generation failed: boom") "thorne" = false ∧
    ("Debate generation failed: boom").toList.any Char.isDigit = false := by
  refine ⟨rfl, by decide, by decide, by decide, by decide⟩

/-- Claim C4 (amended): the dialogue loop does not wrap the speaker calls
in the with_retry controller — each turn invokes its speaker oracle
exactly once, so an oracle that fails transiently on its first invocation
only (and would return an output on any reinvocation, i.e. recoverable by
a single retry under the claimed maxAttempts = 3 policy) still fails the
whole run immediately with the wrapped DebateEngineError. -/
theorem C4_no_retry_wrapping (gM gT : Nat → String → AgentRunResult)
    (c : CaseFile) (E : Nat) (fresh_hex msg : String)
    (hflaky0 : ∀ p, gM 0 p = AgentRunResult.raised (PyError.otherError msg))
    (hflaky1 : ∀ n p, 1 ≤ n → ∃ l, gM n p = AgentRunResult.output l)
    (hT : ∀ n p, ∃ l, gT n p = AgentRunResult.output l)
    (hE : 1 ≤ E) :
    generate_debate gM gT c E fresh_hex =
      Except.error (PyError.debateEngineError ("Debate generation failed: " ++ msg)) := by
  obtain ⟨E2, rfl⟩ : ∃ E2, E = E2 + 1 := ⟨E - 1, by omega⟩
  rw [generate_debate]
  simp only [debateLoop, hflaky0]
  rfl

/-- Witness for the amended C4 with a concrete once-flaky oracle. -/
theorem C4_no_retry_wrapping_witness :
    generate_debate
        (fun n _ => if n = 0 then AgentRunResult.raised (PyError.otherError "rate limited")
          else AgentRunResult.output constLine)
        genConstT caseSalem 1 "ff" =
      Except.error
        (PyError.debateEngineError ("Debate generation failed: " ++ "rate limited")) :=
  C4_no_retry_wrapping
    (fun n _ => if n = 0 then AgentRunResult.raised (PyError.otherError "rate limited")
      else AgentRunResult.output constLine)
    genConstT caseSalem 1 "ff" "rate limited"
    (fun _ => rfl)
    (fun n p hn => ⟨constLine, by simp [show n ≠ 0 from by omega]⟩)
    (fun _ _ => ⟨constLine, rfl⟩) (by omega)

/-- Counterexample to C4 as stated: a Maya oracle that fails transiently
on its first invocation and returns an output on every later invocation —
exactly the failure a single retry of the claimed
with_retry(max_attempts = 3, base_delay = 1.0) policy would absorb — does
not yield a complete Transcript: the 1-exchange run fails at once with
the wrapped error, because generate_debate invokes each speaker call
exactly once, unwrapped. -/
theorem C4_counterexample :
    (fun n (_ : String) =>
        if n = 0 then AgentRunResult.raised (PyError.otherError "rate limited")
        else AgentRunResult.output constLine) 0 "p" =
      AgentRunResult.raised (PyError.otherError "rate limited") ∧
    (fun n (_ : String) =>
        if n = 0 then AgentRunResult.raised (PyError.otherError "rate limited")
        else AgentRunResult.output constLine) 1 "p" = AgentRunResult.output constLine ∧
    (fun n (_ : String) =>
        if n = 0 then AgentRunResult.raised (PyError.otherError "rate limited")
        else AgentRunResult.output constLine) 2 "p" = AgentRunResult.output constLine ∧
    generate_debate
        (fun n _ => if n = 0 then AgentRunResult.raised (PyError.otherError "rate limited")
          else AgentRunResult.output constLine)
        genConstT caseSalem 1 "ff" =
      Except.error (PyError.debateEngineError "Debate generation failed: rate limited") :=
  ⟨rfl, rfl, rfl, rfl⟩

/-- What a kept hook entry satisfies: it is the stripped text of its source
line, its stripped length lies strictly between 20 and 280, and the
lowercased source text contains an indicator. -/
theorem hook_some_facts (line : DialogueLine) (h : String)
    (hf : (if hook_indicators.any (fun ind => strContains (pyLower line.text) ind) then
        (let hook := pyStrip line.text
         if 20 < hook.length && hook.length < 280 then some hook else none)
      else none) = some h) :
    h = pyStrip line.text ∧ 20 < h.length ∧ h.length < 280 ∧
    hook_indicators.any (fun ind => strContains (pyLower line.text) ind) = true := by
  by_cases h1 : hook_indicators.any (fun ind => strContains (pyLower line.text) ind) = true
  · rw [if_pos h1] at hf
    have hf2 : (if 20 < (pyStrip line.text).length && (pyStrip line.text).length < 280
        then some (pyStrip line.text) else none) = some h := hf
    by_cases h2 : (20 < (pyStrip line.text).length && (pyStrip line.text).length < 280) = true
    · rw [if_pos h2] at hf2
      obtain rfl : pyStrip line.text = h := Option.some.inj hf2
      simp only [Bool.and_eq_true, decide_eq_true_eq] at h2
      exact ⟨rfl, h2.1, h2.2, h1⟩
    · rw [if_neg h2] at hf2
      cases hf2
  · rw [if_neg h1] at hf
    cases hf

/-- A filterMap whose kept values are pointwise images under g is a
sublist of the map under g (in particular it preserves the order of l). -/
theorem filterMap_sublist_map {α β : Type} (f : α → Option β) (g : α → β)
    (H : ∀ a b, f a = some b → b = g a) :
    ∀ l : List α, (l.filterMap f).Sublist (l.map g) := by
  intro l
  induction l with
  | nil => simp
  | cons a t ih =>
    rw [List.map_cons]
    cases hfa : f a with
    | none =>
      simp only [List.filterMap_cons, hfa]
      exact ih.cons _
    | some b =>
      have hb := H a b hfa
      subst hb
      simp only [List.filterMap_cons, hfa]
      exact ih.cons₂ _

/-- Claim C8 (amended): the highlight list has at most 5 entries; it is a
sublist of the stripped chapter texts in transcript order (so highlight
order matches turn order); and every entry is the whitespace-stripped text
of a source turn whose lowercased text contains a hook indicator, the
length of the stripped entry — not of the source text — lying strictly
between 20 and 280. -/
theorem C8_hooks_bounded (script : PodcastScript) :
    (generate_social_hooks script).length ≤ 5 ∧
    (generate_social_hooks script).Sublist
      (script.chapters.map (fun l => pyStrip l.text)) ∧
    (∀ h, h ∈ generate_social_hooks script →
      20 < h.length ∧ h.length < 280 ∧
      ∃ l, l ∈ script.chapters ∧ h = pyStrip l.text ∧
        hook_indicators.any (fun ind => strContains (pyLower l.text) ind) = true) := by
  refine ⟨?_, ?_, ?_⟩
  · rw [generate_social_hooks]
    exact List.length_take_le 5 _
  · rw [generate_social_hooks]
    refine (List.take_sublist 5 _).trans (filterMap_sublist_map _ _ ?_ _)
    intro a b hab
    exact (hook_some_facts a b hab).1
  · intro h hmem
    rw [generate_social_hooks] at hmem
    have hmem2 := List.mem_of_mem_take hmem
    obtain ⟨l, hl, hfl⟩ := List.mem_filterMap.mp hmem2
    obtain ⟨heq, h20, h280, hind⟩ := hook_some_facts l h hfl
    exact ⟨h20, h280, l, hl, heq, hind⟩

/-- A turn text with an indicator and 270 trailing spaces: source length
292, stripped length 22. -/
def padText : String := "The truth is out there" ++ String.mk (List.replicate 270 ' ')

/-- The one turn of the scriptPad fixture (a valid DialogueLine: the text
is not blank). -/
def padLine : DialogueLine :=
  { speaker := Speaker.maya_vance, text := padText, emotion_tag := EmotionTag.neutral }

/-- A valid one-turn script holding padText (its pydantic validators hold:
ids and title non-empty, at least one chapter). -/
def scriptPad : PodcastScript :=
  { script_id := "s1", case_id := "c1", episode_title := "T",
    chapters := [padLine], social_hooks := [] }

set_option maxRecDepth 10000 in
/-- Witness for the amended C8: the hook extracted from scriptPad. -/
theorem C8_hooks_bounded_witness :
    20 < ("The truth is out there" : String).length ∧
    ("The truth is out there" : String).length < 280 ∧
    ∃ l, l ∈ scriptPad.chapters ∧ "The truth is out there" = pyStrip l.text ∧
      hook_indicators.any (fun ind => strContains (pyLower l.text) ind) = true :=
  (C8_hooks_bounded scriptPad).2.2 "The truth is out there" (by decide)

set_option maxRecDepth 10000 in
/-- Counterexample to C8 as stated: generate_social_hooks keeps an entry
whose SOURCE turn text has 292 characters — outside [20, 280] — because
the length check is applied to the stripped text (22 characters), not to
the source text the claim speaks about. -/
theorem C8_counterexample :
    generate_social_hooks scriptPad = ["The truth is out there"] ∧
    scriptPad.chapters.map (fun l => l.text.length) = [292] ∧
    ¬ (292 ≤ 280) := by
  refine ⟨by decide, by decide, by omega⟩
